import Mathlib

/-!
Verification of the text-to-graph synthesis pipeline of the clinical-note
visualizer (source files `src/utils/mcpClient.ts`, `src/utils/openai.ts`,
`src/utils/layout.ts`, `src/store/diagStore.ts`).

The TypeScript pipeline is shallowly embedded: strings are Lean `String`
(scanned as `List Char`), JS numbers that only ever hold exact decimal
literals are modelled as `ℚ`, `Math.random()` draws are threaded as explicit
oracle parameters, and the two asynchronous boundaries (the MCP network call
and the dagre layout library) are abstracted as explicit function parameters.
JS `toLowerCase` is modelled on the ASCII range (`Char.toLower`), which agrees
with it on every string the lexicon can match.
-/

namespace MCPPipeline

/-- Character-list substring test, modelling JS `String.prototype.includes`. -/
def charsContains (s pat : List Char) : Bool :=
  match s with
  | [] => pat.isEmpty
  | _ :: t => pat.isPrefixOf s || charsContains t pat

/-- Substring test against a pattern literal. -/
def strIncludes (s : List Char) (pat : String) : Bool :=
  charsContains s pat.data

/-- Substring test between two strings (JS `a.includes(b)`). -/
def strIncludesStr (s pat : String) : Bool :=
  charsContains s.data pat.data

/-- ASCII lowercasing of a string into its character list, modelling the
`clinicalNote.toLowerCase()` preprocessing step. -/
def jsToLower (s : String) : List Char :=
  s.data.map Char.toLower

/-- ASCII lowercasing returning a string (used for the code-table lookups). -/
def lowerStr (s : String) : String :=
  ⟨s.data.map Char.toLower⟩

/-- JS whitespace class (ASCII part), used by `trim` and in the age regex. -/
def isJsWs (c : Char) : Bool :=
  c = ' ' || c = '\t' || c = '\n' || c = '\r' || c = '\x0b' || c = '\x0c'

/-- JS regex word character (`\w`): ASCII alphanumeric or underscore. -/
def isWordChar (c : Char) : Bool :=
  c.isAlphanum || c = '_'

/-- JS `String.prototype.trim`: strip leading and trailing whitespace. -/
def jsTrim (s : String) : String :=
  ⟨((s.data.dropWhile isJsWs).reverse.dropWhile isJsWs).reverse⟩

/-- Decimal value of an ASCII digit. -/
def digitVal (c : Char) : Nat :=
  c.toNat - '0'.toNat

/-- Tail of the age regexes: `\s*(?:year|yr)s?\s*old\b` matched against the
characters following the digits, with the regex backtracking order (the
alternation tries `year` before `yr`, the greedy `s?` tries consuming `s`
first). -/
def ageTailMatch (l : List Char) : Bool :=
  let l1 := l.dropWhile isJsWs
  let tryOld : List Char → Bool := fun r =>
    let r1 := r.dropWhile isJsWs
    ['o', 'l', 'd'].isPrefixOf r1 &&
      (match r1.drop 3 with
       | [] => true
       | c :: _ => !(isWordChar c))
  let afterUnit : List Char → Bool := fun r =>
    (match r with
     | 's' :: r2 => tryOld r2 || tryOld r
     | _ => tryOld r)
  (if ['y', 'e', 'a', 'r'].isPrefixOf l1 then afterUnit (l1.drop 4) else false) ||
  (if ['y', 'r'].isPrefixOf l1 then afterUnit (l1.drop 2) else false)

/-- Attempt to match `\d{2,3}\s*(?:year|yr)s?\s*old\b` at the start of `s`,
returning the `parseInt` value of the captured digit group. The greedy
`\d{2,3}` tries three digits before it backtracks to two. -/
def ageTryMatch (s : List Char) : Option Nat :=
  match s with
  | d1 :: d2 :: d3 :: rest =>
    if d1.isDigit && d2.isDigit then
      if d3.isDigit then
        if ageTailMatch rest then
          some (digitVal d1 * 100 + digitVal d2 * 10 + digitVal d3)
        else if ageTailMatch (d3 :: rest) then
          some (digitVal d1 * 10 + digitVal d2)
        else none
      else if ageTailMatch (d3 :: rest) then
        some (digitVal d1 * 10 + digitVal d2)
      else none
    else none
  | [d1, d2] =>
    if d1.isDigit && d2.isDigit && ageTailMatch [] then
      some (digitVal d1 * 10 + digitVal d2)
    else none
  | _ => none

/-- The word boundary `\b` in front of a digit holds when the preceding
character (if any) is not a word character. -/
def boundaryOk (prev : Option Char) : Bool :=
  match prev with
  | none => true
  | some p => !(isWordChar p)

/-- Left-to-right scan for the first match of
`\b\d{2,3}\s*(?:year|yr)s?\s*old\b`, carrying the previous character for the
word-boundary test; models `text.match(...)` plus `parseInt` on the capture. -/
def findAgeAux (prev : Option Char) (s : List Char) : Option Nat :=
  match s with
  | [] => none
  | c :: t =>
    if boundaryOk prev then
      match ageTryMatch (c :: t) with
      | some a => some a
      | none => findAgeAux (some c) t
    else findAgeAux (some c) t

/-- First-match age extraction over lowercased note text. -/
def jsAgeFirstMatch (text : List Char) : Option Nat :=
  findAgeAux none text

/-- Attempt to match `(?:6[5-9]|[7-9]\d|1\d{2})\s*(?:year|yr)s?\s*old\b` at
the start of `s` (the chronic-conditions age test in
`generateChronicConditions`). -/
def chronicTryMatch (s : List Char) : Bool :=
  match s with
  | c1 :: c2 :: rest =>
    (if c1 = '6' && ('5' ≤ c2 && c2 ≤ '9') then ageTailMatch rest else false) ||
    (if ('7' ≤ c1 && c1 ≤ '9') && c2.isDigit then ageTailMatch rest else false) ||
    (if c1 = '1' && c2.isDigit then
      (match rest with
       | c3 :: rest2 => if c3.isDigit then ageTailMatch rest2 else false
       | [] => false)
     else false)
  | _ => false

/-- Scan for `\b(?:6[5-9]|[7-9]\d|1\d{2})\s*(?:year|yr)s?\s*old\b` anywhere in
the text (boolean regex test). -/
def chronicScanAux (prev : Option Char) (s : List Char) : Bool :=
  match s with
  | [] => false
  | c :: t =>
    (boundaryOk prev && chronicTryMatch (c :: t)) || chronicScanAux (some c) t

/-- Boolean test of the elderly-age regex used by `generateChronicConditions`. -/
def chronicAgeTest (text : List Char) : Bool :=
  chronicScanAux none text

/-- A medical concept emitted by `extractMedicalConcepts` or one of the
synthesizers: `{label: string, type: string, likelihood?: number}`. -/
structure Concept where
  label : String
  type : String
  likelihood : Option ℚ
deriving DecidableEq, Repr

/-- The `medicalPatterns` lexicon of `extractMedicalConcepts`, bucket by
bucket in object-declaration order. -/
def medicalPatterns : List (String × List String) :=
  [("primary_symptoms",
    ["chest pain", "shortness of breath", "dyspnea", "fever", "headache", "nausea", "vomiting",
     "abdominal pain", "dizziness", "fatigue", "weakness", "palpitations", "syncope",
     "confusion", "altered mental status", "back pain", "joint pain"]),
   ("secondary_symptoms",
    ["cough", "sore throat", "runny nose", "congestion", "sweating", "chills", "malaise",
     "anorexia", "weight loss", "weight gain", "insomnia", "anxiety", "depression",
     "numbness", "tingling", "rash", "swelling", "itching"]),
   ("cardiac_diagnoses",
    ["myocardial infarction", "angina", "heart failure", "atrial fibrillation", "hypertension",
     "pericarditis", "endocarditis", "aortic stenosis", "mitral regurgitation", "cardiomyopathy",
     "deep vein thrombosis", "pulmonary embolism"]),
   ("pulmonary_diagnoses",
    ["pneumonia", "copd", "asthma", "bronchitis", "pneumothorax", "pleural effusion",
     "pulmonary edema", "respiratory failure", "tuberculosis", "lung cancer"]),
   ("gi_diagnoses",
    ["appendicitis", "cholecystitis", "pancreatitis", "bowel obstruction", "gastroenteritis",
     "peptic ulcer", "inflammatory bowel disease", "diverticulitis", "hepatitis", "cirrhosis"]),
   ("neuro_diagnoses",
    ["stroke", "seizure", "migraine", "tension headache", "meningitis", "encephalitis",
     "dementia", "delirium", "parkinson disease", "multiple sclerosis"]),
   ("infectious_diagnoses",
    ["sepsis", "pneumonia", "urinary tract infection", "cellulitis", "endocarditis",
     "meningitis", "covid-19", "influenza", "strep throat", "skin infection"]),
   ("metabolic_diagnoses",
    ["diabetes", "hypoglycemia", "hyperglycemia", "thyroid disorder", "adrenal insufficiency",
     "electrolyte imbalance", "dehydration", "kidney disease", "liver disease"]),
   ("diagnostic_tests",
    ["ecg", "ekg", "chest x-ray", "ct scan", "mri", "ultrasound", "blood work", "lab work",
     "troponin", "bun", "creatinine", "glucose", "hemoglobin", "white blood cell count",
     "urinalysis", "cultures", "arterial blood gas", "d-dimer"]),
   ("treatments",
    ["oxygen", "antibiotics", "aspirin", "morphine", "insulin", "steroids", "diuretics",
     "beta blocker", "ace inhibitor", "anticoagulation", "thrombolytics", "vasopressors",
     "iv fluids", "surgery", "intubation", "mechanical ventilation"]),
   ("monitoring",
    ["vital signs", "cardiac monitoring", "pulse oximetry", "blood pressure monitoring",
     "neurological checks", "glucose monitoring", "fluid balance", "pain assessment",
     "respiratory monitoring", "wound care"])]

/-- The `switch (category)` of `extractMedicalConcepts` assigning a concept
type and likelihood to each lexicon bucket (default `concept`, `0.5`). -/
def bucketTypeLik (category : String) : String × ℚ :=
  if category = "primary_symptoms" then ("symptom", 8/10)
  else if category = "secondary_symptoms" then ("symptom", 6/10)
  else if category = "cardiac_diagnoses" || category = "pulmonary_diagnoses" ||
          category = "gi_diagnoses" || category = "neuro_diagnoses" ||
          category = "infectious_diagnoses" || category = "metabolic_diagnoses" then
    ("diagnosis", 7/10)
  else if category = "diagnostic_tests" then ("test", 7/10)
  else if category = "treatments" then ("treatment", 6/10)
  else if category = "monitoring" then ("monitoring", 5/10)
  else ("concept", 5/10)

/-- The lexicon scan of `extractMedicalConcepts`: every phrase of every bucket
that occurs as a substring of the lowercased note becomes one concept, in
bucket-then-phrase order. -/
def lexiconConcepts (text : List Char) : List Concept :=
  medicalPatterns.flatMap (fun bucket =>
    (bucket.2.filter (fun item => strIncludes text item)).map (fun item =>
      { label := item
        type := (bucketTypeLik bucket.1).1
        likelihood := some (bucketTypeLik bucket.1).2 }))

/-- Age-based contextual concepts: if the first age-regex match parses to at
least 65, four fixed geriatric concepts are appended. -/
def ageConcepts (text : List Char) : List Concept :=
  match jsAgeFirstMatch text with
  | some age =>
    if 65 ≤ age then
      [{ label := "geriatric assessment", type := "assessment", likelihood := some (8/10) },
       { label := "fall risk", type := "risk_factor", likelihood := some (7/10) },
       { label := "polypharmacy", type := "risk_factor", likelihood := some (6/10) },
       { label := "frailty", type := "diagnosis", likelihood := some (5/10) }]
    else []
  | none => []

/-- Gender-based contextual concepts (`female` / `woman` substring). -/
def genderConcepts (text : List Char) : List Concept :=
  if strIncludes text "female" || strIncludes text "woman" then
    [{ label := "pregnancy screening", type := "test", likelihood := some (6/10) },
     { label := "gynecologic assessment", type := "assessment", likelihood := some (5/10) }]
  else []

/-- Urgency contextual concepts (`emergency` / `acute` / `urgent` substring). -/
def urgencyConcepts (text : List Char) : List Concept :=
  if strIncludes text "emergency" || strIncludes text "acute" || strIncludes text "urgent" then
    [{ label := "emergency assessment", type := "assessment", likelihood := some (9/10) },
     { label := "triage", type := "process", likelihood := some (8/10) },
     { label := "stabilization", type := "treatment", likelihood := some (7/10) }]
  else []

/-- All concepts collected by `extractMedicalConcepts` before deduplication:
lexicon scan, then age, gender and urgency augmentations. -/
def collectConcepts (clinicalNote : String) : List Concept :=
  let text := jsToLower clinicalNote
  lexiconConcepts text ++ ageConcepts text ++ genderConcepts text ++ urgencyConcepts text

/-- Deduplication by exact label match keeping the first occurrence, modelling
`concepts.filter((c, i, self) => i === self.findIndex(x => x.label === c.label))`.
`seen` carries the labels of the elements already kept. -/
def dedupByLabelAux (seen : List String) : List Concept → List Concept
  | [] => []
  | c :: rest =>
    if c.label ∈ seen then dedupByLabelAux seen rest
    else c :: dedupByLabelAux (c.label :: seen) rest

/-- Label-deduplication entry point. -/
def dedupByLabel (l : List Concept) : List Concept :=
  dedupByLabelAux [] l

/-- `extractMedicalConcepts`: lexicon scan plus contextual augmentation,
deduplicated by label. -/
def extractMedicalConcepts (clinicalNote : String) : List Concept :=
  dedupByLabel (collectConcepts clinicalNote)

/-- The four chest-pain differentials of `generateDifferentialDiagnoses`. -/
def chestPainDifferentials : List Concept :=
  [{ label := "acute coronary syndrome", type := "diagnosis", likelihood := some (7/10) },
   { label := "pulmonary embolism", type := "diagnosis", likelihood := some (6/10) },
   { label := "aortic dissection", type := "diagnosis", likelihood := some (4/10) },
   { label := "pericarditis", type := "diagnosis", likelihood := some (5/10) }]

/-- The four shortness-of-breath differentials of
`generateDifferentialDiagnoses`. -/
def breathDifferentials : List Concept :=
  [{ label := "congestive heart failure", type := "diagnosis", likelihood := some (6/10) },
   { label := "pneumonia", type := "diagnosis", likelihood := some (7/10) },
   { label := "asthma exacerbation", type := "diagnosis", likelihood := some (5/10) },
   { label := "copd exacerbation", type := "diagnosis", likelihood := some (6/10) }]

/-- The three fever differentials of `generateDifferentialDiagnoses`. -/
def feverDifferentials : List Concept :=
  [{ label := "sepsis", type := "diagnosis", likelihood := some (7/10) },
   { label := "urinary tract infection", type := "diagnosis", likelihood := some (6/10) },
   { label := "viral syndrome", type := "diagnosis", likelihood := some (5/10) }]

/-- `generateDifferentialDiagnoses`: trigger-based differential sets,
concatenated in trigger order and capped at 4. -/
def generateDifferentialDiagnoses (symptoms : List Concept) (clinicalNote : String) :
    List Concept :=
  let text := jsToLower clinicalNote
  let part1 :=
    if symptoms.any (fun s => strIncludesStr s.label "chest pain") ||
        strIncludes text "chest pain" then
      chestPainDifferentials
    else []
  let part2 :=
    if symptoms.any (fun s => strIncludesStr s.label "breath") ||
        strIncludes text "dyspnea" || strIncludes text "shortness" then
      breathDifferentials
    else []
  let part3 :=
    if symptoms.any (fun s => strIncludesStr s.label "fever") ||
        strIncludes text "fever" then
      feverDifferentials
    else []
  (part1 ++ part2 ++ part3).take 4

/-- The fixed `actions` array of `generateEvidenceBasedActions`. -/
def evidenceBasedActionPool : List Concept :=
  [{ label := "complete metabolic panel", type := "test", likelihood := some (8/10) },
   { label := "complete blood count", type := "test", likelihood := some (8/10) },
   { label := "chest x-ray", type := "test", likelihood := some (7/10) },
   { label := "ecg", type := "test", likelihood := some (7/10) },
   { label := "vital sign monitoring", type := "monitoring", likelihood := some (9/10) },
   { label := "pain assessment", type := "monitoring", likelihood := some (6/10) },
   { label := "iv access", type := "treatment", likelihood := some (7/10) },
   { label := "oxygen therapy", type := "treatment", likelihood := some (6/10) }]

/-- `generateEvidenceBasedActions`: the fixed pool truncated to its first
four entries; `diagnoses` and `clinicalNote` are accepted but never read. -/
def generateEvidenceBasedActions (diagnoses : List Concept) (clinicalNote : String) :
    List Concept :=
  evidenceBasedActionPool.take 4

/-- `generateChronicConditions`: three fixed chronic conditions when the
elderly-age regex matches. -/
def generateChronicConditions (clinicalNote : String) : List Concept :=
  let text := jsToLower clinicalNote
  if chronicAgeTest text then
    [{ label := "hypertension", type := "diagnosis", likelihood := some (6/10) },
     { label := "diabetes mellitus", type := "diagnosis", likelihood := some (5/10) },
     { label := "osteoarthritis", type := "diagnosis", likelihood := some (4/10) }]
  else []

/-- `generateComorbidities`: fixed list, independent of the note. -/
def generateComorbidities (clinicalNote : String) : List Concept :=
  [{ label := "obesity", type := "diagnosis", likelihood := some (4/10) },
   { label := "smoking history", type := "risk_factor", likelihood := some (3/10) },
   { label := "medication review needed", type := "assessment", likelihood := some (5/10) }]

/-- The ICD-10 lookup table of `getICD10Code`, in declaration order. -/
def icd10Codes : List (String × String) :=
  [("chest pain", "R07.9"), ("shortness of breath", "R06.02"), ("dyspnea", "R06.02"),
   ("fever", "R50.9"), ("headache", "R51.9"), ("abdominal pain", "R10.9"),
   ("nausea", "R11.10"), ("vomiting", "R11.10"), ("dizziness", "R42"),
   ("fatigue", "R53.83"), ("weakness", "R53.1"), ("palpitations", "R00.2"),
   ("syncope", "R55"),
   ("myocardial infarction", "I21.9"), ("acute coronary syndrome", "I24.9"),
   ("angina", "I20.9"), ("heart failure", "I50.9"), ("congestive heart failure", "I50.9"),
   ("atrial fibrillation", "I48.91"), ("hypertension", "I10"), ("pericarditis", "I30.9"),
   ("endocarditis", "I38"), ("cardiomyopathy", "I42.9"), ("pulmonary embolism", "I26.99"),
   ("deep vein thrombosis", "I82.90"), ("aortic dissection", "I71.00"),
   ("pneumonia", "J18.9"), ("copd", "J44.1"), ("copd exacerbation", "J44.1"),
   ("asthma", "J45.9"), ("asthma exacerbation", "J45.901"), ("bronchitis", "J40"),
   ("pneumothorax", "J93.9"), ("pleural effusion", "J94.8"), ("pulmonary edema", "J81.1"),
   ("respiratory failure", "J96.90"),
   ("sepsis", "A41.9"), ("urinary tract infection", "N39.0"), ("cellulitis", "L03.90"),
   ("meningitis", "G03.9"), ("covid-19", "U07.1"), ("influenza", "J11.1"),
   ("viral syndrome", "B34.9"),
   ("appendicitis", "K35.80"), ("cholecystitis", "K81.0"), ("pancreatitis", "K85.9"),
   ("bowel obstruction", "K56.60"), ("gastroenteritis", "K59.1"), ("peptic ulcer", "K27.9"),
   ("stroke", "I63.9"), ("seizure", "G40.909"), ("migraine", "G43.909"),
   ("tension headache", "G44.209"), ("encephalitis", "G04.90"), ("dementia", "F03.90"),
   ("delirium", "F05"),
   ("diabetes", "E11.9"), ("diabetes mellitus", "E11.9"), ("hypoglycemia", "E16.2"),
   ("hyperglycemia", "R73.9"), ("thyroid disorder", "E07.9"), ("dehydration", "E86.0"),
   ("electrolyte imbalance", "E87.8"),
   ("osteoarthritis", "M19.90"), ("obesity", "E66.9"), ("frailty", "R54"),
   ("smoking history", "Z87.891"), ("fall risk", "Z91.81"), ("geriatric assessment", "Z00.00"),
   ("emergency assessment", "Z00.00"), ("medication review needed", "Z51.81")]

/-- `getICD10Code`: lowercased lookup, falling back to the sentinel Z00.00. -/
def getICD10Code (diagnosis : String) : String :=
  (icd10Codes.lookup (lowerStr diagnosis)).getD "Z00.00"

/-- `getDiagnosisCategory`: keyword-based organ-system bucketing. -/
def getDiagnosisCategory (diagnosis : String) : String :=
  let dx := lowerStr diagnosis
  if strIncludesStr dx "heart" || strIncludesStr dx "cardiac" || strIncludesStr dx "coronary" then
    "cardiovascular"
  else if strIncludesStr dx "lung" || strIncludesStr dx "pulmonary" ||
      strIncludesStr dx "respiratory" then "pulmonary"
  else if strIncludesStr dx "infection" || strIncludesStr dx "sepsis" ||
      strIncludesStr dx "fever" then "infectious"
  else if strIncludesStr dx "neuro" || strIncludesStr dx "stroke" ||
      strIncludesStr dx "seizure" then "neurological"
  else if strIncludesStr dx "abdomen" || strIncludesStr dx "gastro" ||
      strIncludesStr dx "liver" then "gastrointestinal"
  else "general"

/-- `getActionPriority`: priority from concept type and position. -/
def getActionPriority (type : String) (index : Nat) : String :=
  if type = "assessment" || index = 0 then "urgent"
  else if type = "test" && index < 3 then "high"
  else if type = "treatment" then "medium"
  else "low"

/-- `getActionCategory`: concept type to action category. -/
def getActionCategory (type : String) : String :=
  if type = "test" || type = "assessment" then "diagnostic"
  else if type = "treatment" then "therapeutic"
  else if type = "monitoring" then "monitoring"
  else "consultation"

/-- `getActionTiming`: timing string from concept type and position. -/
def getActionTiming (type : String) (index : Nat) : String :=
  if type = "assessment" || index = 0 then "immediately"
  else if type = "test" && index < 3 then "within 30 minutes"
  else if type = "treatment" then "within 1 hour"
  else "within 24 hours"

/-- `getRelationshipType`: action category to edge relationship kind
(default branch also yields `investigates`). -/
def getRelationshipType (category : String) : String :=
  if category = "diagnostic" then "investigates"
  else if category = "therapeutic" then "treats"
  else if category = "monitoring" then "monitors"
  else "investigates"

/-- `getRelationshipLabel`: action category to edge label (the
`consultation` branch yields `evaluates`, the default `addresses`). -/
def getRelationshipLabel (category : String) : String :=
  if category = "diagnostic" then "investigates"
  else if category = "therapeutic" then "treats"
  else if category = "monitoring" then "monitors"
  else if category = "consultation" then "evaluates"
  else "addresses"

/-- Index-passing map, modelling JS `array.map((x, index) => ...)` with the
running index made explicit. -/
def mapFrom (f : Nat → α → β) : Nat → List α → List β
  | _, [] => []
  | i, a :: l => f i a :: mapFrom f (i + 1) l

/-- JS `array.map((x, index) => ...)` starting at index 0. -/
def mapWithIndex (f : Nat → α → β) (l : List α) : List β :=
  mapFrom f 0 l

/-- JS `x || d` on an optional number: `undefined`, `0` (and `NaN`, never
produced here) are falsy and select the default. -/
def jsOrNum (x : Option ℚ) (d : ℚ) : ℚ :=
  match x with
  | none => d
  | some v => if v = 0 then d else v

/-- JS `s || d` on a string: the empty string is falsy. -/
def jsOrStr (s d : String) : String :=
  if s = "" then d else s

/-- A node of the `MCPResponse` shape (diagnosis or next-action); the fields
absent from a given node kind stay at their TS-optional defaults. -/
structure MCPNode where
  id : String
  label : String
  type : String
  likelihood : Option ℚ
  confidence : Option ℚ
  evidence : List String
  details : String
  category : Option String
  priority : Option String
  timing : Option String
  related_diagnosis_id : Option String
deriving DecidableEq, Repr

/-- An edge of the `MCPResponse` shape. -/
structure MCPEdge where
  id : String
  source : String
  target : String
  relationship : String
  label : String
  strength : String
deriving DecidableEq, Repr

/-- A billable problem-list item. -/
structure ProblemItem where
  id : String
  diagnosis : String
  icd10Code : String
  likelihood : ℚ
  category : String
  evidence : List String
  status : String
deriving DecidableEq, Repr

/-- The metadata block filled in by `generateMedicalAnalysis`. -/
structure AnalysisMetadata where
  database_nodes_created : Nat
  diagnosis_count : Nat
  action_count : Nat
  problem_count : Nat
deriving DecidableEq, Repr

/-- The `MCPResponse` aggregate returned by the deterministic pipeline. -/
structure MCPResponse where
  nodes : List MCPNode
  edges : List MCPEdge
  problemList : List ProblemItem
  metadata : AnalysisMetadata
deriving DecidableEq, Repr

/-- The `comprehensiveDiagnoses` selection of `generateMedicalAnalysis`: up
to 4 extracted diagnoses, then the synthesized differentials, truncated to 8. -/
def comprehensiveDiagnoses (clinicalNote : String) (createdNodes : List Concept) :
    List Concept :=
  let symptoms := createdNodes.filter (fun n => n.type = "symptom")
  let diagnoses := createdNodes.filter (fun n => n.type = "diagnosis")
  ((diagnoses.take 4) ++ generateDifferentialDiagnoses symptoms clinicalNote).take 8

/-- The `comprehensiveActions` selection of `generateMedicalAnalysis`: up to
3 tests, 2 treatments, 2 monitoring, 1 assessment, then the evidence-based
actions, truncated to 8. -/
def comprehensiveActions (clinicalNote : String) (createdNodes : List Concept) :
    List Concept :=
  let tests := createdNodes.filter (fun n => n.type = "test")
  let treatments := createdNodes.filter (fun n => n.type = "treatment")
  let monitoringNodes := createdNodes.filter (fun n => n.type = "monitoring")
  let assessments := createdNodes.filter (fun n => n.type = "assessment")
  ((tests.take 3) ++ (treatments.take 2) ++ (monitoringNodes.take 2) ++ (assessments.take 1) ++
    generateEvidenceBasedActions (comprehensiveDiagnoses clinicalNote createdNodes) clinicalNote
   ).take 8

/-- The `comprehensiveProblems` selection of `generateMedicalAnalysis`: up to
4 assembled diagnoses plus chronic conditions and comorbidities, truncated
to 8. -/
def comprehensiveProblems (clinicalNote : String) (createdNodes : List Concept) :
    List Concept :=
  ((comprehensiveDiagnoses clinicalNote createdNodes).take 4 ++
    generateChronicConditions clinicalNote ++ generateComorbidities clinicalNote).take 8

/-- A diagnosis entry of the `diagnosisGroups` built by
`generateMedicalAnalysis`; `rand i` stands for the `Math.random()` draw of
the i-th entry's confidence jitter. -/
def mkDiagnosisEntry (rand : Nat → ℚ) (index : Nat) (dx : Concept) : MCPNode :=
  { id := "dx_" ++ Nat.repr index
    label := jsOrStr dx.label ("Diagnosis " ++ Nat.repr (index + 1))
    type := "diagnosis"
    likelihood := some (jsOrNum dx.likelihood (8/10 - (index : ℚ) * (1/10)))
    confidence := some (7/10 + rand index * (2/10))
    evidence := ["Clinical presentation supports " ++ jsOrStr dx.label "this diagnosis"]
    details := "Patient presentation is consistent with " ++ jsOrStr dx.label "this condition"
    category := some (getDiagnosisCategory (jsOrStr dx.label ""))
    priority := none
    timing := none
    related_diagnosis_id := none }

/-- A next-action node of `generateMedicalAnalysis`. `diagCount` is
`comprehensiveDiagnoses.length`; when it is 0, the JS expression
`index % comprehensiveDiagnoses.length` is `NaN` and the template literal
renders the id `dx_NaN`. -/
def mkNextAction (diagCount : Nat) (index : Nat) (action : Concept) : MCPNode :=
  { id := "action_" ++ Nat.repr index
    label := jsOrStr action.label ("Action " ++ Nat.repr (index + 1))
    type := "next_action"
    likelihood := none
    confidence := none
    evidence := []
    details := "Recommended " ++ jsOrStr action.label "intervention" ++
      " based on clinical presentation"
    category := some (getActionCategory action.type)
    priority := some (getActionPriority action.type index)
    timing := some (getActionTiming action.type index)
    related_diagnosis_id :=
      some (if diagCount = 0 then "dx_NaN" else "dx_" ++ Nat.repr (index % diagCount)) }

/-- The relationship edge built from the i-th next-action node. -/
def mkRelationship (index : Nat) (action : MCPNode) : MCPEdge :=
  { id := "rel_" ++ Nat.repr index
    source := (action.related_diagnosis_id).getD ""
    target := action.id
    relationship := getRelationshipType ((action.category).getD "")
    label := getRelationshipLabel ((action.category).getD "")
    strength := "moderate" }

/-- The i-th problem-list item built from a selected problem concept. -/
def mkProblemItem (index : Nat) (problem : Concept) : ProblemItem :=
  { id := "problem_" ++ Nat.repr index
    diagnosis := jsOrStr problem.label ("Problem " ++ Nat.repr (index + 1))
    icd10Code := getICD10Code (jsOrStr problem.label "")
    likelihood := jsOrNum problem.likelihood (8/10 - (index : ℚ) * (8/100))
    category := getDiagnosisCategory (jsOrStr problem.label "")
    evidence := ["Clinical presentation supports " ++ jsOrStr problem.label "this diagnosis"]
    status := "active" }

/-- `generateMedicalAnalysis`: assemble diagnosis nodes, next-action nodes,
relationship edges, the problem list and the metadata counts from the
created concept nodes. -/
def generateMedicalAnalysis (clinicalNote : String) (createdNodes : List Concept)
    (nodesCreated : Nat) (rand : Nat → ℚ) : MCPResponse :=
  let dxSelected := comprehensiveDiagnoses clinicalNote createdNodes
  let actSelected := comprehensiveActions clinicalNote createdNodes
  let probSelected := comprehensiveProblems clinicalNote createdNodes
  let dxNodes := mapWithIndex (mkDiagnosisEntry rand) dxSelected
  let nextActions := mapWithIndex (mkNextAction dxSelected.length) actSelected
  let relationships := mapWithIndex mkRelationship nextActions
  let problemList := mapWithIndex mkProblemItem probSelected
  { nodes := dxNodes ++ nextActions
    edges := relationships
    problemList := problemList
    metadata :=
      { database_nodes_created := nodesCreated
        diagnosis_count := dxNodes.length
        action_count := nextActions.length
        problem_count := problemList.length } }

/-- `analyzeMedicalConcepts` in the run where every `create_node` call on the
MCP server succeeds: the created nodes are exactly the extracted concepts,
which are then assembled by `generateMedicalAnalysis`. -/
def analyzePipeline (clinicalNote : String) (rand : Nat → ℚ) : MCPResponse :=
  let concepts := extractMedicalConcepts clinicalNote
  generateMedicalAnalysis clinicalNote concepts concepts.length rand

/-- JS `x || d` on an optional string: `undefined` and `""` select the
default. -/
def jsOrOptStr (x : Option String) (d : String) : String :=
  match x with
  | none => d
  | some s => if s = "" then d else s

/-- A 2-D node position. -/
structure NodePosition where
  x : ℚ
  y : ℚ
deriving DecidableEq, Repr

/-- The frontend `DiagnosisNodeData` record; fields a construction site does
not mention stay `none`. -/
structure DiagnosisNodeData where
  id : String
  label : String
  type : String
  likelihood : Option ℚ
  confidence : Option ℚ
  evidence : Option (List String)
  details : Option String
  category : Option String
  priority : Option String
  timing : Option String
  related_diagnosis_id : Option String
deriving DecidableEq, Repr

/-- The frontend `DiagnosisNode`. -/
structure DiagnosisNode where
  id : String
  position : NodePosition
  data : DiagnosisNodeData
deriving DecidableEq, Repr

/-- The frontend `DiagnosisEdge`. -/
structure DiagnosisEdge where
  id : String
  source : String
  target : String
  label : Option String
  type : Option String
deriving DecidableEq, Repr

/-- The `OpenAIResponse` returned by `analyzeWithOpenAI`; `problemList` is
always populated by both return paths. -/
structure OpenAIResponse where
  nodes : List DiagnosisNode
  edges : List DiagnosisEdge
  problemList : List ProblemItem
deriving DecidableEq, Repr

/-- The frontend transformation of an `MCPResponse` performed by
`analyzeWithOpenAI` on success: staggered initial positions and
default-filled node data. -/
def transformMCPResponse (r : MCPResponse) : OpenAIResponse :=
  { nodes :=
      mapWithIndex (fun index node =>
        { id := node.id
          position := { x := 100 + (index : ℚ) * 200, y := 100 + (index : ℚ) * 100 }
          data :=
            { id := node.id
              label := node.label
              type := node.type
              likelihood := some (jsOrNum node.likelihood (5/10))
              confidence := some (jsOrNum node.confidence (5/10))
              evidence := some node.evidence
              details := some (jsOrStr node.details "")
              category := some (jsOrOptStr node.category "general")
              priority := some (jsOrOptStr node.priority "medium")
              timing := some (jsOrOptStr node.timing "")
              related_diagnosis_id := some (jsOrOptStr node.related_diagnosis_id "") } })
        r.nodes
    edges :=
      r.edges.map (fun e =>
        { id := e.id, source := e.source, target := e.target,
          label := some e.label, type := some "related" })
    problemList := r.problemList }

/-- `createMinimalFallbackResponse`: the static two-node result produced by
`analyzeWithOpenAI` after the retry also fails. The error argument is only
logged by the source. -/
def createMinimalFallbackResponse (clinicalNote : String) (err : String) : OpenAIResponse :=
  let text := jsToLower clinicalNote
  let symptoms :=
    ["chest pain", "shortness of breath", "fever", "headache", "nausea", "abdominal pain"
     ].filter (fun s => strIncludes text s)
  let ev := if 0 < symptoms.length then symptoms
            else ["Clinical presentation requires assessment"]
  { nodes :=
      [{ id := "fallback_assessment"
         position := { x := 200, y := 150 }
         data :=
           { id := "fallback_assessment"
             label := "Clinical Assessment Required"
             type := "diagnosis"
             likelihood := some (8/10)
             confidence := some (6/10)
             evidence := some ev
             details := some ("Patient requires comprehensive medical assessment " ++
               "based on clinical presentation")
             category := some "emergency"
             priority := some "high"
             timing := none
             related_diagnosis_id := none } },
       { id := "immediate_workup"
         position := { x := 400, y := 150 }
         data :=
           { id := "immediate_workup"
             label := "Comprehensive Medical Workup"
             type := "next_action"
             likelihood := none
             confidence := none
             evidence := none
             details := some "Immediate comprehensive assessment and diagnostic workup required"
             category := some "diagnostic"
             priority := some "urgent"
             timing := some "immediately"
             related_diagnosis_id := some "fallback_assessment" } }]
    edges :=
      [{ id := "fallback_edge", source := "fallback_assessment", target := "immediate_workup",
         label := some "requires workup", type := some "related" }]
    problemList :=
      [{ id := "fallback_problem", diagnosis := "Clinical Assessment Required",
         icd10Code := "Z00.00", likelihood := 8/10, category := "emergency",
         evidence := ev, status := "active" }] }

/-- `analyzeWithOpenAI` with an explicit `retryCount`, the awaited
`analyzeWithMCP` call abstracted as an attempt-indexed outcome `mcp`: reject
blank notes, use the first successful attempt, retry once, and fall back to
the minimal static response. -/
def analyzeWithOpenAIFrom (clinicalNote : String) (mcp : Nat → Except String MCPResponse)
    (retryCount : Nat) : Except String OpenAIResponse :=
  if jsTrim clinicalNote = "" then Except.error "Clinical note cannot be empty"
  else
    match mcp retryCount with
    | Except.ok r => Except.ok (transformMCPResponse r)
    | Except.error e =>
      if h : retryCount < 1 then analyzeWithOpenAIFrom clinicalNote mcp (retryCount + 1)
      else Except.ok (createMinimalFallbackResponse clinicalNote e)
termination_by 2 - retryCount
decreasing_by omega

/-- `analyzeWithOpenAI` as called by the store (`retryCount = 0`). -/
def analyzeWithOpenAI (clinicalNote : String) (mcp : Nat → Except String MCPResponse) :
    Except String OpenAIResponse :=
  analyzeWithOpenAIFrom clinicalNote mcp 0

/-- The graph slice of the zustand store. -/
structure GraphState where
  nodes : List DiagnosisNode
  edges : List DiagnosisEdge
deriving DecidableEq, Repr

/-- The data fields of the zustand `DiagnosisState` (the setter closures are
modelled as record updates). -/
structure StoreState where
  note : String
  graph : GraphState
  problemList : List ProblemItem
  isLoading : Bool
  error : Option String
  apiKey : String
  isRecording : Bool
  isTranscribing : Bool
deriving DecidableEq, Repr

/-- The error-message rewriting of the store's `analyzeNote` catch branch. -/
def analyzeNoteErrorText (msg : String) : String :=
  if strIncludesStr msg "MCP Server error" then
    "Medical analysis server is temporarily unavailable. Please try again in a moment."
  else if strIncludesStr msg "database" then
    "Medical database is temporarily unavailable. Analysis may be limited."
  else msg

/-- The store's `analyzeNote` action as a state transformer: blank notes are
rejected before any work with only the error field touched; otherwise the
analysis result replaces the graph and problem list (the `finally` clears
`isLoading`). -/
def analyzeNoteStore (st : StoreState) (note : String)
    (mcp : Nat → Except String MCPResponse) : StoreState :=
  if jsTrim note = "" then
    { st with error := some "Please enter a clinical note to analyze" }
  else
    match analyzeWithOpenAI note mcp with
    | Except.ok result =>
      { st with
          isLoading := false
          error := none
          graph := { nodes := result.nodes, edges := result.edges }
          problemList := result.problemList }
    | Except.error msg =>
      { st with
          isLoading := false
          error := some (analyzeNoteErrorText msg) }

/-- First-occurrence-ordered distinct strings, modelling the key order of the
record built by `groupNodesByType` (JS object keys keep insertion order). -/
def firstOccurrencesAux (seen : List String) : List String → List String
  | [] => []
  | s :: rest =>
    if s ∈ seen then firstOccurrencesAux seen rest
    else s :: firstOccurrencesAux (s :: seen) rest

/-- The distinct `data.type` values of a node list in first-occurrence order
(the keys of `groupNodesByType`). -/
def orderedNodeTypes (nodes : List DiagnosisNode) : List String :=
  firstOccurrencesAux [] (nodes.map (fun n => n.data.type))

/-- `getLayoutedElements`: the dagre run is abstracted as a position oracle
`dagrePos` from node id to dagre's computed center; the source then shifts
by half the fixed node width (200) and height (80). The `direction`
argument only parameterizes the dagre run. -/
def getLayoutedElements (dagrePos : String → ℚ × ℚ) (nodes : List DiagnosisNode)
    (edges : List DiagnosisEdge) (direction : String) : GraphState :=
  { nodes :=
      nodes.map (fun node =>
        { node with
            position :=
              { x := (dagrePos node.id).1 - 200 / 2
                y := (dagrePos node.id).2 - 80 / 2 } })
    edges := edges }

/-- `getForceLayoutedElements`: with clustering on, each node is moved to the
cluster center of its `data.type` (centers spaced evenly across a
1200-by-800 canvas by `calculateClusterCenters`) plus a random offset; with
clustering off the nodes pass through unchanged. `rand i` supplies the two
`Math.random()` draws of the i-th node's offset. Of the source's options
object only `clustering` is ever read (default `true`); the numeric options
are accepted and ignored. -/
def getForceLayoutedElements (clustering : Bool) (rand : Nat → ℚ × ℚ)
    (nodes : List DiagnosisNode) (edges : List DiagnosisEdge) : GraphState :=
  let types := orderedNodeTypes nodes
  let spacing : ℚ := 1200 / ((types.length : ℚ) + 1)
  let adjustedNodes :=
    mapWithIndex (fun i node =>
      if clustering then
        match types.findIdx? (fun t => t = node.data.type) with
        | some idx =>
          { node with
              position :=
                { x := spacing * ((idx : ℚ) + 1) + ((rand i).1 - 1/2) * 100
                  y := 800 / 2 + ((rand i).2 - 1/2) * 100 } }
        | none => node
      else node) nodes
  { nodes := adjustedNodes, edges := edges }

/-- `getSmartLayout`: choose a layout from the node count and the presence of
a `next-step` edge. The final (default) branch calls
`getForceLayoutedElements` with no options, whose `clustering` default is
`true`. -/
def getSmartLayout (dagrePos : String → ℚ × ℚ) (rand : Nat → ℚ × ℚ)
    (nodes : List DiagnosisNode) (edges : List DiagnosisEdge) : GraphState :=
  let nodeCount := nodes.length
  let hasHierarchy := edges.any (fun e => e.type == some "next-step")
  if nodeCount ≤ 5 then
    getForceLayoutedElements false rand nodes edges
  else if hasHierarchy = true ∧ nodeCount ≤ 15 then
    getLayoutedElements dagrePos nodes edges "TB"
  else if 15 < nodeCount then
    getForceLayoutedElements true rand nodes edges
  else
    getForceLayoutedElements true rand nodes edges

/-- The three observably distinct layout plans `getSmartLayout` can select. -/
inductive SmartLayoutChoice where
  | forceNoCluster : SmartLayoutChoice
  | hierarchicalTB : SmartLayoutChoice
  | forceCluster : SmartLayoutChoice
deriving DecidableEq, Repr

/-- Modelled from the spec: the layout decision table as a pure function of
the node count and the multiset of edge kinds, with the default branch
amended to the clustering-enabled force layout actually produced by the
source's option default. -/
def smartLayoutChoiceSpec (nodeCount : Nat) (edgeKinds : List (Option String)) :
    SmartLayoutChoice :=
  if nodeCount ≤ 5 then SmartLayoutChoice.forceNoCluster
  else if some "next-step" ∈ edgeKinds ∧ nodeCount ≤ 15 then SmartLayoutChoice.hierarchicalTB
  else SmartLayoutChoice.forceCluster

/-- Interpret a layout choice on concrete nodes and edges. -/
def applySmartChoice (dagrePos : String → ℚ × ℚ) (rand : Nat → ℚ × ℚ)
    (nodes : List DiagnosisNode) (edges : List DiagnosisEdge) :
    SmartLayoutChoice → GraphState
  | SmartLayoutChoice.forceNoCluster => getForceLayoutedElements false rand nodes edges
  | SmartLayoutChoice.hierarchicalTB => getLayoutedElements dagrePos nodes edges "TB"
  | SmartLayoutChoice.forceCluster => getForceLayoutedElements true rand nodes edges

/-- Concrete random-number oracle (all draws 0) for evaluating the assembler
on closed inputs. -/
def rand0 : Nat → ℚ := fun _ => 0

/-- Concrete pair-valued random oracle for the layout functions. -/
def randPair0 : Nat → ℚ × ℚ := fun _ => (0, 0)

/-- Concrete dagre position oracle placing every node at the origin. -/
def dagre0 : String → ℚ × ℚ := fun _ => (0, 0)

/-- A minimal concrete diagnosis node at the origin, for layout tests. -/
def mkTestNode (i : Nat) : DiagnosisNode :=
  { id := "n" ++ Nat.repr i
    position := { x := 0, y := 0 }
    data :=
      { id := "n" ++ Nat.repr i, label := "node", type := "diagnosis",
        likelihood := none, confidence := none, evidence := none, details := none,
        category := none, priority := none, timing := none, related_diagnosis_id := none } }

/-- Six concrete test nodes: a graph size that lands in `getSmartLayout`'s
default branch when no `next-step` edge is present. -/
def testNodes6 : List DiagnosisNode :=
  [mkTestNode 0, mkTestNode 1, mkTestNode 2, mkTestNode 3, mkTestNode 4, mkTestNode 5]

/-- Length of an index-passing map. -/
theorem length_mapFrom (f : Nat → α → β) (i : Nat) (l : List α) :
    (mapFrom f i l).length = l.length := by
  induction l generalizing i with
  | nil => rfl
  | cons a l ih => simp [mapFrom, ih]

/-- Length of `mapWithIndex`. -/
theorem length_mapWithIndex (f : Nat → α → β) (l : List α) :
    (mapWithIndex f l).length = l.length :=
  length_mapFrom f 0 l

/-- Entries of an index-passing map. -/
theorem get_mapFrom (f : Nat → α → β) (i : Nat) (l : List α) (j : Nat)
    (h : j < (mapFrom f i l).length) (h' : j < l.length) :
    (mapFrom f i l).get ⟨j, h⟩ = f (i + j) (l.get ⟨j, h'⟩) := by
  induction l generalizing i j with
  | nil => exact absurd h' (by simp)
  | cons a l ih =>
    cases j with
    | zero => rfl
    | succ j =>
      have hlen : j < (mapFrom f (i + 1) l).length := by
        simpa [mapFrom] using h
      have hlen' : j < l.length := by simpa using h'
      have := ih (i + 1) j hlen hlen'
      simpa [mapFrom, Nat.add_assoc, Nat.add_comm 1 j] using this

/-- Entries of `mapWithIndex`. -/
theorem get_mapWithIndex (f : Nat → α → β) (l : List α) (j : Nat)
    (h : j < (mapWithIndex f l).length) (h' : j < l.length) :
    (mapWithIndex f l).get ⟨j, h⟩ = f j (l.get ⟨j, h'⟩) := by
  simpa using get_mapFrom f 0 l j h h'

/-- Every member of an index-passing map is the image of a list member. -/
theorem mem_mapFrom {f : Nat → α → β} {i : Nat} {l : List α} {x : β}
    (h : x ∈ mapFrom f i l) : ∃ j a, a ∈ l ∧ x = f j a := by
  induction l generalizing i with
  | nil => simp [mapFrom] at h
  | cons a l ih =>
    simp only [mapFrom, List.mem_cons] at h
    rcases h with h | h
    · exact ⟨i, a, List.mem_cons_self a l, h⟩
    · rcases ih h with ⟨j, b, hb, hx⟩
      exact ⟨j, b, List.mem_cons_of_mem a hb, hx⟩

/-- Every member of `mapWithIndex` is the image of a list member. -/
theorem mem_mapWithIndex {f : Nat → α → β} {l : List α} {x : β}
    (h : x ∈ mapWithIndex f l) : ∃ j a, a ∈ l ∧ x = f j a :=
  mem_mapFrom h

/-- Deduplication yields a sublist of its input. -/
theorem dedupByLabelAux_sublist (seen : List String) (l : List Concept) :
    (dedupByLabelAux seen l).Sublist l := by
  induction l generalizing seen with
  | nil => simp [dedupByLabelAux]
  | cons c rest ih =>
    by_cases h : c.label ∈ seen
    · simpa [dedupByLabelAux, h] using (ih seen).cons c
    · simpa [dedupByLabelAux, h] using (ih (c.label :: seen)).cons₂ c

/-- No label already in `seen` reappears among the kept concepts. -/
theorem dedupByLabelAux_not_seen (seen : List String) (l : List Concept) (s : String)
    (hs : s ∈ seen) : s ∉ (dedupByLabelAux seen l).map (fun c => c.label) := by
  induction l generalizing seen with
  | nil => simp [dedupByLabelAux]
  | cons c rest ih =>
    by_cases h : c.label ∈ seen
    · simpa [dedupByLabelAux, h] using ih seen hs
    · intro hmem
      simp only [dedupByLabelAux, h, if_false, List.map_cons, List.mem_cons] at hmem
      rcases hmem with hmem | hmem
      · exact h (hmem ▸ hs)
      · exact ih (c.label :: seen) (List.mem_cons_of_mem _ hs) hmem

/-- The kept concepts have pairwise distinct labels. -/
theorem dedupByLabelAux_nodup (seen : List String) (l : List Concept) :
    ((dedupByLabelAux seen l).map (fun c => c.label)).Nodup := by
  induction l generalizing seen with
  | nil => simp [dedupByLabelAux]
  | cons c rest ih =>
    by_cases h : c.label ∈ seen
    · simpa [dedupByLabelAux, h] using ih seen
    · simp only [dedupByLabelAux, h, if_false, List.map_cons, List.nodup_cons]
      exact ⟨dedupByLabelAux_not_seen (c.label :: seen) rest c.label
          (List.mem_cons_self _ _), ih (c.label :: seen)⟩

/-- Every collected label not yet in `seen` survives deduplication. -/
theorem dedupByLabelAux_covers (seen : List String) (l : List Concept) :
    ∀ c ∈ l, c.label ∉ seen → ∃ d ∈ dedupByLabelAux seen l, d.label = c.label := by
  induction l generalizing seen with
  | nil => intro c hc; simp at hc
  | cons a rest ih =>
    intro c hc hnot
    rcases List.mem_cons.mp hc with rfl | hc
    · have h : ¬ c.label ∈ seen := hnot
      exact ⟨c, by simp [dedupByLabelAux, h], rfl⟩
    · by_cases h : a.label ∈ seen
      · rcases ih seen c hc hnot with ⟨d, hd, hlab⟩
        exact ⟨d, by simpa [dedupByLabelAux, h] using hd, hlab⟩
      · by_cases heq : c.label = a.label
        · exact ⟨a, by simp [dedupByLabelAux, h], heq.symm⟩
        · have hnot' : c.label ∉ a.label :: seen := by
            simp [heq, hnot]
          rcases ih (a.label :: seen) c hc hnot' with ⟨d, hd, hlab⟩
          exact ⟨d, by simp [dedupByLabelAux, h, hd], hlab⟩

/-- A collected concept whose label is new to `seen` and does not occur
earlier in the list is itself kept (first occurrences survive verbatim). -/
theorem dedupByLabelAux_keeps_first (seen : List String) (l : List Concept) :
    ∀ j (h : j < l.length), (l.get ⟨j, h⟩).label ∉ seen →
      (∀ k (hk : k < l.length), k < j → (l.get ⟨k, hk⟩).label ≠ (l.get ⟨j, h⟩).label) →
      l.get ⟨j, h⟩ ∈ dedupByLabelAux seen l := by
  induction l generalizing seen with
  | nil => intro j h; exact absurd h (by simp)
  | cons a rest ih =>
    intro j h hseen hearlier
    cases j with
    | zero =>
      have h0 : ¬ a.label ∈ seen := hseen
      simp [dedupByLabelAux, h0]
    | succ j =>
      have hj : j < rest.length := by simpa using h
      have hne : a.label ≠ (rest.get ⟨j, hj⟩).label := by
        have := hearlier 0 (by simp) (Nat.succ_pos j)
        simpa using this
      have hearlier' : ∀ k (hk : k < rest.length), k < j →
          (rest.get ⟨k, hk⟩).label ≠ (rest.get ⟨j, hj⟩).label := by
        intro k hk hkj
        have := hearlier (k + 1) (by simpa using hk) (by omega)
        simpa using this
      by_cases hmem : a.label ∈ seen
      · have := ih seen j hj (by simpa using hseen) hearlier'
        simpa [dedupByLabelAux, hmem] using this
      · have hseen' : (rest.get ⟨j, hj⟩).label ∉ a.label :: seen := by
          intro hx
          rcases List.mem_cons.mp hx with hx | hx
          · exact hne hx.symm
          · exact hseen (by simpa using hx)
        have := ih (a.label :: seen) j hj hseen' hearlier'
        simp [dedupByLabelAux, hmem]
        right
        simpa using this

/-- C6: whenever the lowercased note contains `chest pain`, the differential
synthesizer emits exactly the four chest-pain differentials with likelihoods
0.7, 0.6, 0.4 and 0.5, and on every input its output is capped at 4
candidates (trigger sets concatenated in order, then truncated). -/
theorem chest_pain_differentials (symptoms : List Concept) (clinicalNote : String) :
    (strIncludes (jsToLower clinicalNote) "chest pain" = true →
      generateDifferentialDiagnoses symptoms clinicalNote =
        [{ label := "acute coronary syndrome", type := "diagnosis", likelihood := some (7/10) },
         { label := "pulmonary embolism", type := "diagnosis", likelihood := some (6/10) },
         { label := "aortic dissection", type := "diagnosis", likelihood := some (4/10) },
         { label := "pericarditis", type := "diagnosis", likelihood := some (5/10) }]) ∧
    (generateDifferentialDiagnoses symptoms clinicalNote).length ≤ 4 := by
  constructor
  · intro h
    have hcpd : chestPainDifferentials.length = 4 := rfl
    simp only [generateDifferentialDiagnoses, h, Bool.or_true, if_true, List.append_assoc]
    rw [List.take_left' hcpd]
    rfl
  · simp only [generateDifferentialDiagnoses, List.length_take]
    omega

/-- Witness for C6 at the concrete note `"chest pain"`. -/
theorem chest_pain_differentials_witness :
    generateDifferentialDiagnoses [] "chest pain" =
      [{ label := "acute coronary syndrome", type := "diagnosis", likelihood := some (7/10) },
       { label := "pulmonary embolism", type := "diagnosis", likelihood := some (6/10) },
       { label := "aortic dissection", type := "diagnosis", likelihood := some (4/10) },
       { label := "pericarditis", type := "diagnosis", likelihood := some (5/10) }] :=
  (chest_pain_differentials [] "chest pain").1 (by decide)

/-- C7: the extractor output has pairwise distinct labels; it is a sublist of
the collected concepts (first-occurrence order preserved); every collected
label survives; and every collected concept that is the first occurrence of
its label is kept verbatim. -/
theorem extract_label_dedup (clinicalNote : String) :
    ((extractMedicalConcepts clinicalNote).map (fun c => c.label)).Nodup ∧
    (extractMedicalConcepts clinicalNote).Sublist (collectConcepts clinicalNote) ∧
    (∀ c ∈ collectConcepts clinicalNote,
      ∃ d ∈ extractMedicalConcepts clinicalNote, d.label = c.label) ∧
    (∀ j (h : j < (collectConcepts clinicalNote).length),
      (∀ k (hk : k < (collectConcepts clinicalNote).length), k < j →
        ((collectConcepts clinicalNote).get ⟨k, hk⟩).label ≠
          ((collectConcepts clinicalNote).get ⟨j, h⟩).label) →
      (collectConcepts clinicalNote).get ⟨j, h⟩ ∈ extractMedicalConcepts clinicalNote) := by
  refine ⟨dedupByLabelAux_nodup [] _, dedupByLabelAux_sublist [] _, ?_, ?_⟩
  · intro c hc
    exact dedupByLabelAux_covers [] _ c hc (by simp)
  · intro j h hearlier
    exact dedupByLabelAux_keeps_first [] _ j h (by simp) hearlier

/-- Witness for C7 at the note `"pneumonia"`, whose collected concepts hold
the label `pneumonia` twice (pulmonary and infectious buckets). -/
theorem extract_label_dedup_witness :
    ((extractMedicalConcepts "pneumonia").map (fun c => c.label)).Nodup ∧
    (∃ d ∈ extractMedicalConcepts "pneumonia", d.label = "pneumonia") := by
  refine ⟨(extract_label_dedup "pneumonia").1, ?_⟩
  have h := (extract_label_dedup "pneumonia").2.2.1
    { label := "pneumonia", type := "diagnosis", likelihood := some (7/10) }
    (by rw [show collectConcepts "pneumonia" =
        [{ label := "pneumonia", type := "diagnosis", likelihood := some (7/10) },
         { label := "pneumonia", type := "diagnosis", likelihood := some (7/10) }] from rfl]
        exact List.mem_cons_self _ _)
  exact h

/-- Filtering an index-passing map whose images all satisfy the predicate is
the identity. -/
theorem filter_mapFrom_eq_self {p : β → Bool} {f : Nat → α → β}
    (h : ∀ j a, p (f j a) = true) (i : Nat) (l : List α) :
    (mapFrom f i l).filter p = mapFrom f i l := by
  induction l generalizing i with
  | nil => rfl
  | cons a l ih => simp [mapFrom, List.filter_cons, h, ih]

/-- Filtering an index-passing map whose images all falsify the predicate is
empty. -/
theorem filter_mapFrom_eq_nil {p : β → Bool} {f : Nat → α → β}
    (h : ∀ j a, p (f j a) = false) (i : Nat) (l : List α) :
    (mapFrom f i l).filter p = [] := by
  induction l generalizing i with
  | nil => rfl
  | cons a l ih => simp [mapFrom, List.filter_cons, h, ih]

/-- The diagnosis-typed nodes of the assembled result are exactly the mapped
`comprehensiveDiagnoses` selection. -/
theorem nodes_filter_diagnosis (clinicalNote : String) (createdNodes : List Concept)
    (nodesCreated : Nat) (rand : Nat → ℚ) :
    ((generateMedicalAnalysis clinicalNote createdNodes nodesCreated rand).nodes.filter
      (fun n => n.type = "diagnosis")) =
    mapWithIndex (mkDiagnosisEntry rand) (comprehensiveDiagnoses clinicalNote createdNodes) := by
  show ((mapWithIndex (mkDiagnosisEntry rand) _ ++ mapWithIndex _ _).filter _) = _
  rw [List.filter_append, mapWithIndex, mapWithIndex,
    filter_mapFrom_eq_self (fun j a => by simp [mkDiagnosisEntry]),
    filter_mapFrom_eq_nil (fun j a => by simp [mkNextAction]), List.append_nil]

/-- The next-action nodes of the assembled result are exactly the mapped
`comprehensiveActions` selection. -/
theorem nodes_filter_action (clinicalNote : String) (createdNodes : List Concept)
    (nodesCreated : Nat) (rand : Nat → ℚ) :
    ((generateMedicalAnalysis clinicalNote createdNodes nodesCreated rand).nodes.filter
      (fun n => n.type = "next_action")) =
    mapWithIndex (mkNextAction (comprehensiveDiagnoses clinicalNote createdNodes).length)
      (comprehensiveActions clinicalNote createdNodes) := by
  show ((mapWithIndex (mkDiagnosisEntry rand) _ ++ mapWithIndex _ _).filter _) = _
  rw [List.filter_append, mapWithIndex, mapWithIndex,
    filter_mapFrom_eq_nil (fun j a => by simp [mkDiagnosisEntry]),
    filter_mapFrom_eq_self (fun j a => by simp [mkNextAction]), List.nil_append]

/-- C10: every selected action concept carries one of the four extractable
types, so every assembled next-action node's category is `diagnostic`,
`therapeutic` or `monitoring` — the `consultation` category (and with it the
`evaluates`-labelled edge branch) is unreachable. -/
theorem action_category_closed (clinicalNote : String) (createdNodes : List Concept)
    (nodesCreated : Nat) (rand : Nat → ℚ) :
    (∀ a ∈ comprehensiveActions clinicalNote createdNodes,
      a.type = "test" ∨ a.type = "treatment" ∨ a.type = "monitoring" ∨
        a.type = "assessment") ∧
    (∀ node ∈ (generateMedicalAnalysis clinicalNote createdNodes nodesCreated rand).nodes,
      node.type = "next_action" →
        (node.category = some "diagnostic" ∨ node.category = some "therapeutic" ∨
          node.category = some "monitoring") ∧ node.category ≠ some "consultation") := by
  have htypes : ∀ a ∈ comprehensiveActions clinicalNote createdNodes,
      a.type = "test" ∨ a.type = "treatment" ∨ a.type = "monitoring" ∨
        a.type = "assessment" := by
    intro a ha
    have ha' := List.mem_of_mem_take ha
    rcases List.mem_append.mp ha' with h | hev
    · rcases List.mem_append.mp h with h | hassess
      · rcases List.mem_append.mp h with h | hmon
        · rcases List.mem_append.mp h with htest | htreat
          · exact Or.inl (by simpa using (List.mem_filter.mp (List.mem_of_mem_take htest)).2)
          · exact Or.inr (Or.inl
              (by simpa using (List.mem_filter.mp (List.mem_of_mem_take htreat)).2))
        · exact Or.inr (Or.inr (Or.inl
            (by simpa using (List.mem_filter.mp (List.mem_of_mem_take hmon)).2)))
      · exact Or.inr (Or.inr (Or.inr
          (by simpa using (List.mem_filter.mp (List.mem_of_mem_take hassess)).2)))
    · have := List.mem_of_mem_take hev
      simp only [generateEvidenceBasedActions] at hev
      have := List.mem_of_mem_take hev
      simp only [evidenceBasedActionPool, List.mem_cons, List.not_mem_nil, or_false] at this
      rcases this with rfl | rfl | rfl | rfl | rfl | rfl | rfl | rfl <;> simp
  refine ⟨htypes, ?_⟩
  intro node hnode htype
  rcases List.mem_append.mp hnode with hdx | hact
  · rcases mem_mapWithIndex hdx with ⟨j, a, _, rfl⟩
    exact absurd htype (by simp [mkDiagnosisEntry])
  · rcases mem_mapWithIndex hact with ⟨j, a, ha, rfl⟩
    rcases htypes a ha with h | h | h | h <;>
      simp [mkNextAction, getActionCategory, h]

/-- Witness for C10: the first assembled action node of the zero-concept note
`"zzz"` (the complete metabolic panel) has category `diagnostic`. -/
theorem action_category_closed_witness :
    ((⟨"complete metabolic panel", "test", some (8/10)⟩ : Concept).type = "test" ∨
      (⟨"complete metabolic panel", "test", some (8/10)⟩ : Concept).type = "treatment" ∨
      (⟨"complete metabolic panel", "test", some (8/10)⟩ : Concept).type = "monitoring" ∨
      (⟨"complete metabolic panel", "test", some (8/10)⟩ : Concept).type = "assessment") ∧
    (((mkNextAction 0 0 ⟨"complete metabolic panel", "test", some (8/10)⟩).category =
        some "diagnostic" ∨
      (mkNextAction 0 0 ⟨"complete metabolic panel", "test", some (8/10)⟩).category =
        some "therapeutic" ∨
      (mkNextAction 0 0 ⟨"complete metabolic panel", "test", some (8/10)⟩).category =
        some "monitoring") ∧
      (mkNextAction 0 0 ⟨"complete metabolic panel", "test", some (8/10)⟩).category ≠
        some "consultation") := by
  have H := action_category_closed "zzz" [] 0 rand0
  refine ⟨H.1 _ ?_, H.2 _ ?_ (by decide)⟩
  · rw [show comprehensiveActions "zzz" [] =
      [⟨"complete metabolic panel", "test", some (8/10)⟩,
       ⟨"complete blood count", "test", some (8/10)⟩,
       ⟨"chest x-ray", "test", some (7/10)⟩,
       ⟨"ecg", "test", some (7/10)⟩] from rfl]
    exact List.mem_cons_self _ _
  · rw [show (generateMedicalAnalysis "zzz" [] 0 rand0).nodes =
      mapWithIndex (mkNextAction 0)
        [⟨"complete metabolic panel", "test", some (8/10)⟩,
         ⟨"complete blood count", "test", some (8/10)⟩,
         ⟨"chest x-ray", "test", some (7/10)⟩,
         ⟨"ecg", "test", some (7/10)⟩] from rfl]
    exact List.mem_cons_self _ _

/-- The problem list of the assembled result is the mapped
`comprehensiveProblems` selection. -/
theorem generate_problemList (clinicalNote : String) (createdNodes : List Concept)
    (nodesCreated : Nat) (rand : Nat → ℚ) :
    (generateMedicalAnalysis clinicalNote createdNodes nodesCreated rand).problemList =
    mapWithIndex mkProblemItem (comprehensiveProblems clinicalNote createdNodes) := rfl

/-- The edges of the assembled result are the relationship edges mapped over
the next-action nodes. -/
theorem generate_edges (clinicalNote : String) (createdNodes : List Concept)
    (nodesCreated : Nat) (rand : Nat → ℚ) :
    (generateMedicalAnalysis clinicalNote createdNodes nodesCreated rand).edges =
    mapWithIndex mkRelationship
      (mapWithIndex (mkNextAction (comprehensiveDiagnoses clinicalNote createdNodes).length)
        (comprehensiveActions clinicalNote createdNodes)) := rfl

/-- C1 (amended): for every note, the assembled result has at most 8
diagnosis nodes (possibly 0 when nothing diagnosis-like is extracted and no
differential triggers), between 2 and 8 next-action nodes, and between 1 and
8 problem-list items. -/
theorem assembled_size_bounds (clinicalNote : String) (rand : Nat → ℚ) :
    ((analyzePipeline clinicalNote rand).nodes.filter
      (fun n => n.type = "diagnosis")).length ≤ 8 ∧
    2 ≤ ((analyzePipeline clinicalNote rand).nodes.filter
      (fun n => n.type = "next_action")).length ∧
    ((analyzePipeline clinicalNote rand).nodes.filter
      (fun n => n.type = "next_action")).length ≤ 8 ∧
    1 ≤ (analyzePipeline clinicalNote rand).problemList.length ∧
    (analyzePipeline clinicalNote rand).problemList.length ≤ 8 := by
  have hdx : ((analyzePipeline clinicalNote rand).nodes.filter
      (fun n => n.type = "diagnosis")).length =
      (comprehensiveDiagnoses clinicalNote (extractMedicalConcepts clinicalNote)).length := by
    rw [analyzePipeline, nodes_filter_diagnosis, length_mapWithIndex]
  have hact : ((analyzePipeline clinicalNote rand).nodes.filter
      (fun n => n.type = "next_action")).length =
      (comprehensiveActions clinicalNote (extractMedicalConcepts clinicalNote)).length := by
    rw [analyzePipeline, nodes_filter_action, length_mapWithIndex]
  have hprob : (analyzePipeline clinicalNote rand).problemList.length =
      (comprehensiveProblems clinicalNote (extractMedicalConcepts clinicalNote)).length := by
    rw [analyzePipeline, generate_problemList, length_mapWithIndex]
  have hdxlen : (comprehensiveDiagnoses clinicalNote
      (extractMedicalConcepts clinicalNote)).length ≤ 8 := by
    simp only [comprehensiveDiagnoses, List.length_take]
    omega
  have hactlen : 4 ≤ (comprehensiveActions clinicalNote
        (extractMedicalConcepts clinicalNote)).length ∧
      (comprehensiveActions clinicalNote (extractMedicalConcepts clinicalNote)).length ≤ 8 := by
    simp only [comprehensiveActions, generateEvidenceBasedActions, List.length_take,
      List.length_append]
    have hpool : evidenceBasedActionPool.length = 8 := rfl
    omega
  have hproblen : 1 ≤ (comprehensiveProblems clinicalNote
        (extractMedicalConcepts clinicalNote)).length ∧
      (comprehensiveProblems clinicalNote (extractMedicalConcepts clinicalNote)).length ≤ 8 := by
    simp only [comprehensiveProblems, List.length_take, List.length_append]
    have hcom : (generateComorbidities clinicalNote).length = 3 := rfl
    omega
  omega

set_option maxHeartbeats 2000000 in
/-- C1 counterexample: for the non-empty note `"hello"` the assembled result
has zero diagnosis nodes, refuting the claimed lower bound of 1. -/
theorem assembled_size_bounds_cex :
    ¬ 1 ≤ ((analyzePipeline "hello" rand0).nodes.filter
      (fun n => n.type = "diagnosis")).length := by
  decide

set_option maxHeartbeats 2000000 in
/-- C2: for the note `"headache"` (a symptom with no diagnosis concept and no
differential trigger) the assembler emits four edges whose source is the
dangling id `dx_NaN` — `index % 0` is `NaN` in JS — so referential integrity
fails: some edge source is not the id of any node in the result. -/
theorem edges_reference_missing_node :
    ((analyzePipeline "headache" rand0).edges.map (fun e => e.source) =
      ["dx_NaN", "dx_NaN", "dx_NaN", "dx_NaN"]) ∧
    ¬ (∀ e ∈ (analyzePipeline "headache" rand0).edges,
        e.source ∈ (analyzePipeline "headache" rand0).nodes.map (fun n => n.id)) := by
  decide

set_option maxHeartbeats 2000000 in
/-- C3 counterexample: the note `"zzz"` extracts zero concepts, yet the
assembled result has 4 next-action nodes, not the claimed 8. -/
theorem zero_concept_actions_cex :
    extractMedicalConcepts "zzz" = [] ∧
    ((analyzePipeline "zzz" rand0).nodes.filter
      (fun n => n.type = "next_action")).length ≠ 8 := by
  decide

/-- C3 (amended): whenever extraction yields zero concepts, the assembler
outputs exactly 4 next-action nodes — the first four entries of the fixed
evidence-based list (complete metabolic panel, complete blood count, chest
x-ray, ecg), because `generateEvidenceBasedActions` truncates the fixed
8-entry pool to 4. -/
theorem zero_concept_actions (clinicalNote : String) (rand : Nat → ℚ)
    (h : extractMedicalConcepts clinicalNote = []) :
    ((analyzePipeline clinicalNote rand).nodes.filter
      (fun n => n.type = "next_action")).map (fun n => n.label) =
      ["complete metabolic panel", "complete blood count", "chest x-ray", "ecg"] := by
  rw [analyzePipeline, h, nodes_filter_action]
  rw [show comprehensiveActions clinicalNote [] =
    [⟨"complete metabolic panel", "test", some (8/10)⟩,
     ⟨"complete blood count", "test", some (8/10)⟩,
     ⟨"chest x-ray", "test", some (7/10)⟩,
     ⟨"ecg", "test", some (7/10)⟩] from rfl]
  simp [mapWithIndex, mapFrom, mkNextAction, jsOrStr]

/-- Witness for C3 at the concrete zero-concept note `"zzz"`. -/
theorem zero_concept_actions_witness :
    ((analyzePipeline "zzz" rand0).nodes.filter
      (fun n => n.type = "next_action")).map (fun n => n.label) =
      ["complete metabolic panel", "complete blood count", "chest x-ray", "ecg"] :=
  zero_concept_actions "zzz" rand0 (by decide)

/-- C4: a blank (empty or whitespace-only) note is rejected before any
analysis: `analyzeWithOpenAI` raises the precondition error, and the store's
`analyzeNote` only records the user-correctable message, leaving the graph
and problem list untouched. -/
theorem blank_note_rejected (st : StoreState) (clinicalNote : String)
    (mcp : Nat → Except String MCPResponse) (h : jsTrim clinicalNote = "") :
    analyzeWithOpenAI clinicalNote mcp = Except.error "Clinical note cannot be empty" ∧
    analyzeNoteStore st clinicalNote mcp =
      { st with error := some "Please enter a clinical note to analyze" } ∧
    (analyzeNoteStore st clinicalNote mcp).graph = st.graph ∧
    (analyzeNoteStore st clinicalNote mcp).problemList = st.problemList := by
  have h1 : analyzeWithOpenAI clinicalNote mcp =
      Except.error "Clinical note cannot be empty" := by
    rw [analyzeWithOpenAI, analyzeWithOpenAIFrom, if_pos h]
  have h2 : analyzeNoteStore st clinicalNote mcp =
      { st with error := some "Please enter a clinical note to analyze" } := by
    rw [analyzeNoteStore, if_pos h]
  exact ⟨h1, h2, by rw [h2], by rw [h2]⟩

/-- Witness for C4 at the whitespace-only note. -/
theorem blank_note_rejected_witness :
    analyzeWithOpenAI " \t " (fun _ => Except.error "network down") =
      Except.error "Clinical note cannot be empty" ∧
    (analyzeNoteStore
        { note := "", graph := { nodes := [], edges := [] }, problemList := [],
          isLoading := false, error := none, apiKey := "", isRecording := false,
          isTranscribing := false }
        " \t " (fun _ => Except.error "network down")).graph =
      { nodes := [], edges := [] } := by
  have H := blank_note_rejected
    { note := "", graph := { nodes := [], edges := [] }, problemList := [],
      isLoading := false, error := none, apiKey := "", isRecording := false,
      isTranscribing := false }
    " \t " (fun _ => Except.error "network down") (by decide)
  exact ⟨H.1, H.2.2.1⟩

/-- C5: for a non-blank note, a successful first attempt is transformed and
returned; if both the first attempt and the single immediate retry fail, the
static minimal fallback is returned, which has exactly one diagnosis node
(category `emergency`), one next-action node (priority `urgent`), and one
edge connecting them; and no outcome of the attempts ever lets
`analyzeWithOpenAI` propagate an error for a non-blank note. -/
theorem mcp_failure_fallback (clinicalNote : String)
    (mcp : Nat → Except String MCPResponse) (h : jsTrim clinicalNote ≠ "") :
    (∀ r, mcp 0 = Except.ok r →
      analyzeWithOpenAI clinicalNote mcp = Except.ok (transformMCPResponse r)) ∧
    (∀ e0 e1, mcp 0 = Except.error e0 → mcp 1 = Except.error e1 →
      analyzeWithOpenAI clinicalNote mcp =
        Except.ok (createMinimalFallbackResponse clinicalNote e1)) ∧
    (∀ e, ((createMinimalFallbackResponse clinicalNote e).nodes.filter
        (fun n => n.data.type = "diagnosis")).map (fun n => (n.id, n.data.category)) =
          [("fallback_assessment", some "emergency")] ∧
      ((createMinimalFallbackResponse clinicalNote e).nodes.filter
        (fun n => n.data.type = "next_action")).map (fun n => (n.id, n.data.priority)) =
          [("immediate_workup", some "urgent")] ∧
      (createMinimalFallbackResponse clinicalNote e).edges =
        [{ id := "fallback_edge", source := "fallback_assessment",
           target := "immediate_workup", label := some "requires workup",
           type := some "related" }]) ∧
    (∃ result, analyzeWithOpenAI clinicalNote mcp = Except.ok result) := by
  have hok : ∀ r, mcp 0 = Except.ok r →
      analyzeWithOpenAI clinicalNote mcp = Except.ok (transformMCPResponse r) := by
    intro r hr
    rw [analyzeWithOpenAI, analyzeWithOpenAIFrom, if_neg h, hr]
  have hfail : ∀ e0 e1, mcp 0 = Except.error e0 → mcp 1 = Except.error e1 →
      analyzeWithOpenAI clinicalNote mcp =
        Except.ok (createMinimalFallbackResponse clinicalNote e1) := by
    intro e0 e1 h0 h1
    rw [analyzeWithOpenAI, analyzeWithOpenAIFrom, if_neg h, h0]
    simp only [Nat.zero_lt_one, dif_pos]
    rw [analyzeWithOpenAIFrom, if_neg h, h1]
    simp
  refine ⟨hok, hfail, ?_, ?_⟩
  · intro e
    refine ⟨?_, ?_, rfl⟩ <;>
      simp [createMinimalFallbackResponse, List.filter_cons]
  · cases h0 : mcp 0 with
    | ok r => exact ⟨transformMCPResponse r, hok r h0⟩
    | error e0 =>
      cases h1 : mcp 1 with
      | ok r =>
        refine ⟨transformMCPResponse r, ?_⟩
        rw [analyzeWithOpenAI, analyzeWithOpenAIFrom, if_neg h, h0]
        simp only [Nat.zero_lt_one, dif_pos]
        rw [analyzeWithOpenAIFrom, if_neg h, h1]
      | error e1 =>
        exact ⟨createMinimalFallbackResponse clinicalNote e1, hfail e0 e1 h0 h1⟩

/-- Witness for C5: with both attempts failing on the note `"chest pain"`,
the result is the minimal fallback and an `ok` value. -/
theorem mcp_failure_fallback_witness :
    analyzeWithOpenAI "chest pain" (fun _ => Except.error "boom") =
      Except.ok (createMinimalFallbackResponse "chest pain" "boom") ∧
    (∃ result, analyzeWithOpenAI "chest pain" (fun _ => Except.error "boom") =
      Except.ok result) := by
  have H := mcp_failure_fallback "chest pain" (fun _ => Except.error "boom") (by decide)
  exact ⟨H.2.1 "boom" "boom" rfl rfl, H.2.2.2⟩

/-- Optional indexing into an index-passing map. -/
theorem getElem?_mapFrom (f : Nat → α → β) (i : Nat) (l : List α) (j : Nat) :
    (mapFrom f i l)[j]? = (l[j]?).map (fun a => f (i + j) a) := by
  induction l generalizing i j with
  | nil => simp [mapFrom]
  | cons a l ih =>
    cases j with
    | zero => simp [mapFrom]
    | succ j =>
      have := ih (i + 1) j
      simp only [mapFrom, List.getElem?_cons_succ, this]
      have harith : i + 1 + j = i + (j + 1) := by omega
      rw [harith]

/-- Optional indexing into `mapWithIndex`. -/
theorem getElem?_mapWithIndex (f : Nat → α → β) (l : List α) (j : Nat) :
    (mapWithIndex f l)[j]? = (l[j]?).map (fun a => f j a) := by
  simpa using getElem?_mapFrom f 0 l j

/-- The action-node ids `action_0` … `action_7` are pairwise distinct. -/
theorem action_id_inj : ∀ i ∈ Finset.range 8, ∀ j ∈ Finset.range 8,
    "action_" ++ Nat.repr i = "action_" ++ Nat.repr j → i = j := by
  decide

/-- The action selection never exceeds 8 entries. -/
theorem comprehensiveActions_length_le (clinicalNote : String) (createdNodes : List Concept) :
    (comprehensiveActions clinicalNote createdNodes).length ≤ 8 := by
  simp only [comprehensiveActions, List.length_take]
  omega

/-- C8: when at least one diagnosis node exists, every action node `action_i`
receives exactly one edge: edge `rel_i` runs from `dx_(i mod diagnosisCount)`
to `action_i` with fixed strength `moderate`, and its kind and label follow
the action's category table — `diagnostic` to `investigates`, `therapeutic`
to `treats`, `monitoring` to `monitors`, while `consultation` is labelled
`evaluates` but typed `investigates`. -/
theorem action_edge_construction (clinicalNote : String) (createdNodes : List Concept)
    (nodesCreated : Nat) (rand : Nat → ℚ)
    (hd : 0 < (comprehensiveDiagnoses clinicalNote createdNodes).length) :
    (generateMedicalAnalysis clinicalNote createdNodes nodesCreated rand).edges.length =
      (comprehensiveActions clinicalNote createdNodes).length ∧
    (∀ (i : Nat) (a : Concept),
      (comprehensiveActions clinicalNote createdNodes)[i]? = some a →
      (generateMedicalAnalysis clinicalNote createdNodes nodesCreated rand).edges[i]? =
        some ({ id := "rel_" ++ Nat.repr i,
                source := "dx_" ++
                  Nat.repr (i % (comprehensiveDiagnoses clinicalNote createdNodes).length),
                target := "action_" ++ Nat.repr i,
                relationship := getRelationshipType (getActionCategory a.type),
                label := getRelationshipLabel (getActionCategory a.type),
                strength := "moderate" } : MCPEdge)) ∧
    (∀ i a, (comprehensiveActions clinicalNote createdNodes)[i]? = some a →
      ((generateMedicalAnalysis clinicalNote createdNodes nodesCreated rand).nodes.filter
          (fun n => n.type = "next_action"))[i]? =
        some (mkNextAction (comprehensiveDiagnoses clinicalNote createdNodes).length i a) ∧
      (mkNextAction (comprehensiveDiagnoses clinicalNote createdNodes).length i a).id =
        "action_" ++ Nat.repr i) ∧
    (∀ (i j : Nat) (ei ej : MCPEdge),
      (generateMedicalAnalysis clinicalNote createdNodes nodesCreated rand).edges[i]? =
        some ei →
      (generateMedicalAnalysis clinicalNote createdNodes nodesCreated rand).edges[j]? =
        some ej →
      ei.target = ej.target → i = j) ∧
    getRelationshipType "diagnostic" = "investigates" ∧
    getRelationshipType "therapeutic" = "treats" ∧
    getRelationshipType "monitoring" = "monitors" ∧
    getRelationshipType "consultation" = "investigates" ∧
    getRelationshipLabel "consultation" = "evaluates" := by
  have hne : (comprehensiveDiagnoses clinicalNote createdNodes).length ≠ 0 :=
    Nat.pos_iff_ne_zero.mp hd
  have hlen : (generateMedicalAnalysis clinicalNote createdNodes nodesCreated rand).edges.length
      = (comprehensiveActions clinicalNote createdNodes).length := by
    rw [generate_edges, length_mapWithIndex, length_mapWithIndex]
  have hpoint : ∀ (i : Nat) (a : Concept),
      (comprehensiveActions clinicalNote createdNodes)[i]? = some a →
      (generateMedicalAnalysis clinicalNote createdNodes nodesCreated rand).edges[i]? =
        some ({ id := "rel_" ++ Nat.repr i,
                source := "dx_" ++
                  Nat.repr (i % (comprehensiveDiagnoses clinicalNote createdNodes).length),
                target := "action_" ++ Nat.repr i,
                relationship := getRelationshipType (getActionCategory a.type),
                label := getRelationshipLabel (getActionCategory a.type),
                strength := "moderate" } : MCPEdge) := by
    intro i a hia
    rw [generate_edges, getElem?_mapWithIndex, getElem?_mapWithIndex, hia]
    simp [mkRelationship, mkNextAction, hne]
  refine ⟨hlen, hpoint, ?_, ?_, rfl, rfl, rfl, rfl, rfl⟩
  · intro i a hia
    constructor
    · rw [nodes_filter_action, getElem?_mapWithIndex, hia]
      rfl
    · rfl
  · intro i j ei ej hi hj htgt
    have hilen : i < (comprehensiveActions clinicalNote createdNodes).length := by
      have := (List.getElem?_eq_some.mp hi).1
      omega
    have hjlen : j < (comprehensiveActions clinicalNote createdNodes).length := by
      have := (List.getElem?_eq_some.mp hj).1
      omega
    have hi' := hpoint i _ (List.getElem?_eq_getElem hilen)
    have hj' := hpoint j _ (List.getElem?_eq_getElem hjlen)
    rw [hi] at hi'
    rw [hj] at hj'
    have hti : ei.target = "action_" ++ Nat.repr i := by
      rw [Option.some_inj.mp hi']
    have htj : ej.target = "action_" ++ Nat.repr j := by
      rw [Option.some_inj.mp hj']
    have hle := comprehensiveActions_length_le clinicalNote createdNodes
    refine action_id_inj i ?_ j ?_ ?_
    · simp only [Finset.mem_range]; omega
    · simp only [Finset.mem_range]; omega
    · rw [← hti, ← htj, htgt]

/-- Witness for C8: on the note `"chest pain"` with no created concepts, 4
differential diagnoses exist and the first edge runs from `dx_0` to
`action_0`, typed and labelled `investigates` with strength `moderate`. -/
theorem action_edge_construction_witness :
    0 < (comprehensiveDiagnoses "chest pain" []).length ∧
    (generateMedicalAnalysis "chest pain" [] 0 rand0).edges[0]? =
      some ({ id := "rel_0", source := "dx_0", target := "action_0",
              relationship := "investigates", label := "investigates",
              strength := "moderate" } : MCPEdge) := by
  have hd : 0 < (comprehensiveDiagnoses "chest pain" []).length := by decide
  have H := action_edge_construction "chest pain" [] 0 rand0 hd
  have h1 := H.2.1 0 ⟨"complete metabolic panel", "test", some (8/10)⟩ rfl
  refine ⟨hd, ?_⟩
  rw [h1]
  decide

/-- C9 (amended): `getSmartLayout` realizes a pure decision table over the
node count and edge kinds: at most 5 nodes selects the force layout with
clustering disabled; more than 5 and at most 15 nodes with a `next-step`
edge selects the hierarchical (dagre, top-bottom) layout; every other case —
including the default branch, whose options omit `clustering` and therefore
default it to `true` — selects the force layout with clustering enabled. -/
theorem smart_layout_decision (dagrePos : String → ℚ × ℚ) (rand : Nat → ℚ × ℚ)
    (nodes : List DiagnosisNode) (edges : List DiagnosisEdge) :
    getSmartLayout dagrePos rand nodes edges =
      applySmartChoice dagrePos rand nodes edges
        (smartLayoutChoiceSpec nodes.length (edges.map (fun e => e.type))) := by
  have hmem : (edges.any (fun e => e.type == some "next-step") = true) ↔
      some "next-step" ∈ edges.map (fun e => e.type) := by
    simp [List.any_eq_true, List.mem_map]
  by_cases h5 : nodes.length ≤ 5
  · simp [getSmartLayout, smartLayoutChoiceSpec, applySmartChoice, h5]
  · by_cases hh : edges.any (fun e => e.type == some "next-step") = true
    · have hmem' : some "next-step" ∈ edges.map (fun e => e.type) := hmem.mp hh
      by_cases h15 : nodes.length ≤ 15
      · simp [getSmartLayout, smartLayoutChoiceSpec, applySmartChoice, h5, hh, h15, hmem']
      · simp [getSmartLayout, smartLayoutChoiceSpec, applySmartChoice, h5, hh, h15, hmem']
    · have hmem' : some "next-step" ∉ edges.map (fun e => e.type) :=
        fun hx => hh (hmem.mpr hx)
      simp [getSmartLayout, smartLayoutChoiceSpec, applySmartChoice, h5, hh, hmem']

/-- C9 counterexample: a 6-node graph with no edges lands in the default
branch, which clusters — it equals the clustering-enabled force layout and
moves every node, while the claimed clustering-disabled force layout leaves
the nodes unchanged. -/
theorem smart_layout_default_cex :
    getSmartLayout dagre0 randPair0 testNodes6 [] =
      getForceLayoutedElements true randPair0 testNodes6 [] ∧
    (getForceLayoutedElements false randPair0 testNodes6 []).nodes = testNodes6 ∧
    getSmartLayout dagre0 randPair0 testNodes6 [] ≠
      getForceLayoutedElements false randPair0 testNodes6 [] := by
  refine ⟨rfl, rfl, ?_⟩
  intro h
  have hx := congrArg (fun g => (g.nodes.map (fun n => n.position.x)).head?) h
  simp only [getSmartLayout, getForceLayoutedElements, testNodes6, mkTestNode,
    orderedNodeTypes, firstOccurrencesAux, mapWithIndex, mapFrom, randPair0,
    List.map_cons, List.head?_cons, List.length_cons, List.length_nil, List.any_nil,
    List.findIdx?] at hx
  norm_num at hx

end MCPPipeline
